import Mathlib

/-
Verification of the IMQS/modbusd Modbus client core.

This file is a shallow embedding of the Go sources (protocol.go, client.go,
transport.go, modbustcp.go) into Lean 4.  Bytes are modelled as `Nat` values
(list elements produced by the decoder arithmetic are always reduced with
`&&& 255` / `% 256` exactly where the Go code truncates to `byte`).  Fallible
operations return `Option` / `Except`; a Go runtime panic (index out of range
on a slice read or write) is modelled by the distinguished outcome `crash`,
which is distinct from both a successfully decoded ADU and a returned error
value.
-/

/-! ## Byte-slice access primitives

`rd`/`rd16` model Go slice reads (`response[i]`, `binary.BigEndian.Uint16`),
`wr`/`wr16` model in-place writes (`b[i] = v`, `binary.BigEndian.PutUint16`).
`none` models the runtime panic Go raises when the index is out of range. -/

def rd (resp : List Nat) (i : Nat) : Option Nat :=
  resp.get? i

def wr (l : List Nat) (i : Nat) (v : Nat) : Option (List Nat) :=
  if i < l.length then some (l.set i v) else none

/-- Models `binary.BigEndian.Uint16(resp[i:])`: needs two readable bytes, else panic. -/
def rd16 (resp : List Nat) (i : Nat) : Option Nat :=
  if i + 2 ≤ resp.length then some (256 * resp.getD i 0 + resp.getD (i + 1) 0) else none

/-- Models `binary.BigEndian.PutUint16(l[i:], v)`: needs two writable bytes, else panic. -/
def wr16 (l : List Nat) (i : Nat) (v : Nat) : Option (List Nat) :=
  if i + 2 ≤ l.length then
    some ((l.set i ((v >>> 8) &&& 255)).set (i + 1) (v &&& 255))
  else none

/-! ## Wire constants (modbustcp.go, protocol.go) -/

def COLON : Nat := 0x3A
def CR : Nat := 0x0D
def LF : Nat := 0x0A

def RDCO : Nat := 0x01
def RDDI : Nat := 0x02
def RDHR : Nat := 0x03
def RDIR : Nat := 0x04
def RSID : Nat := 0x11
def FERR : Nat := 0x80

def UINT64MOD : Nat := 18446744073709551616

/-! ## Checksums -/

/-- One shift round of the Modbus CRC: shift right, xor with 0xA001 when the
low bit was set. -/
def crcRound (c : Nat) : Nat :=
  if c &&& 1 = 1 then (c >>> 1) ^^^ 0xA001 else c >>> 1

/-- Fold one input byte into the CRC accumulator: xor in the byte, then run
eight shift rounds. -/
def crcByte (c b : Nat) : Nat :=
  crcRound^[8] (c ^^^ (b &&& 255))

/-- Modelled from the spec: the `CRC` type (`reset`, `calculate`, `value`) is
used by `handleCRC` and `ErrorCRC` but its implementation file is not in src.
Per spec 4.A it is CRC-16 Modbus: polynomial 0xA001 (reflected 0x8005),
initial value 0xFFFF, reflected input and output, no final XOR. -/
def crc16 (bs : List Nat) : Nat :=
  bs.foldl crcByte 0xFFFF

/-- Modelled from the spec: the LRC-8 computation is absent from `ErrorLRC` in
the source (the function body computes nothing); per spec 4.A the LRC is the
twos-complement of the 8-bit sum of the bytes from slave id through data. -/
def lrc8 (bs : List Nat) : Nat :=
  (256 - (bs.foldl (· + ·) 0) % 256) % 256

/-! ## Address translator (modbustcp.go `Relative` / `Absolute`)

Go's `Relative(absolute uint64, fncode *FnCode) (uint64, error)` writes the
function code through a pointer and returns the relative address and an error;
here the triple is (function code, returned address, error present). -/

def Relative (absolute : Nat) : Nat × Nat × Bool :=
  if absolute ≤ 65535 then (RDCO, absolute, false)
  else if 100000 ≤ absolute ∧ absolute ≤ 165535 then (RDDI, absolute - 100000, false)
  else if 300000 ≤ absolute ∧ absolute ≤ 365535 then (RDIR, absolute - 300000, false)
  else if 400000 ≤ absolute ∧ absolute ≤ 465535 then (RDHR, absolute - 400000, false)
  else (FERR, absolute, true)

/-- Go `Absolute(fncode, relative)`: adds the range offset back (uint64 addition,
hence the wrap modulo 2^64); unknown codes return the input with an error. -/
def Absolute (fncode : Nat) (relative : Nat) : Nat × Bool :=
  if fncode = RDCO then (relative, false)
  else if fncode = RDDI then ((relative + 100000) % UINT64MOD, false)
  else if fncode = RDIR then ((relative + 300000) % UINT64MOD, false)
  else if fncode = RDHR then ((relative + 400000) % UINT64MOD, false)
  else (relative, true)

/-- The four legal absolute ranges of spec 4.C (the domain on which
`Relative` succeeds). -/
def legalAbsolute (a : Nat) : Prop :=
  a ≤ 65535 ∨ (100000 ≤ a ∧ a ≤ 165535) ∨ (300000 ≤ a ∧ a ≤ 365535) ∨
    (400000 ≤ a ∧ a ≤ 465535)

instance (a : Nat) : Decidable (legalAbsolute a) := by
  unfold legalAbsolute
  infer_instance

/-! ## PDU, Request encoder (modbustcp.go) -/

structure PDU where
  FnCode : List Nat := []
  Data : List Nat := []
  deriving DecidableEq, Repr

/-- Go `NewPDU(fncode)`. -/
def NewPDU (fncode : Nat) : PDU :=
  { FnCode := [fncode] }

structure Request where
  FnCode : Nat
  Address : Nat
  Quantity : Nat
  deriving DecidableEq, Repr

/-- The `PutUint16` big-endian rendering of a u16 value as two bytes. -/
def u16be (v : Nat) : List Nat :=
  [(v >>> 8) &&& 255, v &&& 255]

/-- Go `Request.Encode`: switch on the function code; the read codes share one
4-byte body, `RSID` has an empty body, anything else is an error. -/
def Request.Encode (r : Request) : Except String PDU :=
  if r.FnCode = RSID then
    .ok { FnCode := [r.FnCode], Data := [] }
  else if r.FnCode = RDCO ∨ r.FnCode = RDDI ∨ r.FnCode = RDHR ∨ r.FnCode = RDIR then
    .ok { FnCode := [r.FnCode], Data := u16be r.Address ++ u16be r.Quantity }
  else
    .error ("Unsupported function code")

/-! ## ADU (modbustcp.go)

The Go `ADU` embeds `MBAP` and `PDU`; the fields are flattened here.  Go nil
slices and empty slices behave identically for every operation the decoder
performs (zero length reads/writes, zero bytes serialized), so sections are
plain lists with `[]` for nil. -/

structure ADU where
  SOF : List Nat := []
  Hdr : List Nat := []
  TransactionId : Nat := 0
  ProtocolId : Nat := 0
  Length : Nat := 0
  SlaveId : Nat := 0
  FnCode : List Nat := []
  Data : List Nat := []
  Err : List Nat := []
  CRC : Nat := 0
  ExceptionCode : Nat := 0
  Exception : String := ""
  Timeout : Bool := false
  EOF : List Nat := []
  deriving DecidableEq, Repr

/-- Go `NewADU(pdu)` with a non-nil pdu: an ADU holding just the embedded PDU. -/
def NewADU (pdu : PDU) : ADU :=
  { FnCode := pdu.FnCode, Data := pdu.Data }

/-- Go `NewADU(nil)`: a fresh frame seeded with the sentinel function code
`FERR` (0x80). -/
def NewADUnil : ADU :=
  NewADU (NewPDU FERR)

/-- Go `ADU.Bytes`: concatenation `SOF ++ Hdr ++ FnCode ++ Data ++ Err ++ EOF`. -/
def ADU.Bytes (d : ADU) : List Nat :=
  d.SOF ++ d.Hdr ++ d.FnCode ++ d.Data ++ d.Err ++ d.EOF

/-- Go `ADU.ErrorLRC`: the source clears `Err`, serializes the frame into a local
variable, and returns without computing or storing any checksum, so its whole
observable effect is `Err := []`. -/
def ADU.ErrorLRC (d : ADU) : ADU :=
  { d with Err := [] }

/-! ## Decoder state machine (protocol.go `Recover` and its handlers)

`Section` carries the nine section tags of the Go `Section` enum.  `DErr`
gives one constructor per distinct `fmt.Errorf` site the decoder can return
through; `DecodeResult.crash` models a Go runtime panic (out-of-range slice
index or write into a nil slice), which returns neither an ADU nor an error
value. -/

inductive Section where
  | SMBAP | SRTU | SASCII | SPDU | SERR | SDONE | SFAIL | SSOF | SEOF
  deriving DecidableEq, Repr

inductive DErr where
  | shortFrame
  | checksumMismatch
  | frameAlignSOF
  | frameAlignEOF
  | unsupportedSection
  | unsupportedFunction
  | unsupportedException
  | illegalLength
  | failureToProcess
  deriving DecidableEq, Repr

inductive DecodeResult where
  | ok (adu : ADU)
  | err (e : DErr)
  | crash
  deriving DecidableEq, Repr

/-- Result of one section handler: the updated frame, cursor and next
section, or an error return, or a runtime panic. -/
inductive HOut where
  | ok (adu : ADU) (cnt : Nat) (sec : Section)
  | err (e : DErr)
  | crash
  deriving DecidableEq, Repr

/-- Go `handleSOF` for the ASCII start: read one byte and store it in `SOF[0]`.
`NewADU` leaves `SOF` nil, so the store panics on every run; both the read
and the write are modelled so the panic is reached exactly as in Go. -/
def handleSOF (adu : ADU) (resp : List Nat) (cnt : Nat) : HOut :=
  match rd resp cnt with
  | none => .crash
  | some b =>
    match wr adu.SOF 0 b with
    | none => .crash
    | some sof =>
      let adu := { adu with SOF := sof }
      let cnt := (cnt + 1) % 256
      if sof.getD 0 0 ≠ COLON then .err .frameAlignSOF
      else .ok adu cnt .SEOF

/-- Go `handleEOF`: slice out the last two bytes (panics when the buffer is
shorter than two) and check for `CR LF`. -/
def handleEOF (adu : ADU) (resp : List Nat) (cnt : Nat) : HOut :=
  if resp.length < 2 then .crash
  else
    let eof := resp.drop (resp.length - 2)
    let adu := { adu with EOF := eof }
    if eof.getD 0 0 ≠ CR ∨ eof.getD 1 0 ≠ LF then .err .frameAlignEOF
    else .ok adu cnt .SERR

/-- Go `handleMBAP`: parse transaction id, protocol id, length, slave id, copying
each into `adu.Hdr` as it goes.  `adu.Hdr` is still nil here (`NewADU` does
not allocate it and `handleMBAP` never does), so the first header write
panics. -/
def handleMBAP (adu : ADU) (resp : List Nat) (cnt : Nat) : HOut :=
  match rd16 resp cnt with
  | none => .crash
  | some tid =>
    match wr16 adu.Hdr cnt tid with
    | none => .crash
    | some hdr =>
      let adu := { adu with TransactionId := tid, Hdr := hdr }
      let cnt := (cnt + 2) % 256
      match rd16 resp cnt with
      | none => .crash
      | some pid =>
        match wr16 adu.Hdr cnt pid with
        | none => .crash
        | some hdr =>
          let adu := { adu with ProtocolId := pid, Hdr := hdr }
          let cnt := (cnt + 2) % 256
          match rd16 resp cnt with
          | none => .crash
          | some len =>
            match wr16 adu.Hdr cnt len with
            | none => .crash
            | some hdr =>
              let adu := { adu with Length := len, Hdr := hdr }
              let cnt := (cnt + 2) % 256
              match rd resp cnt with
              | none => .crash
              | some sid =>
                match wr adu.Hdr cnt sid with
                | none => .crash
                | some hdr =>
                  .ok { adu with SlaveId := sid, Hdr := hdr } ((cnt + 1) % 256) .SPDU

/-- Go `handleRTU`: minimum-length guard, then read the slave id into a freshly
allocated one-byte header. -/
def handleRTU (adu : ADU) (resp : List Nat) (cnt : Nat) : HOut :=
  if resp.length < 4 then .err .shortFrame
  else
    let adu := { adu with Hdr := [0] }
    match rd resp cnt with
    | none => .crash
    | some sid =>
      match wr adu.Hdr cnt sid with
      | none => .crash
      | some hdr =>
        .ok { adu with SlaveId := sid, Hdr := hdr } ((cnt + 1) % 256) .SPDU

/-- Go `handleASCII`: same slave-id extraction with the ASCII minimum-length
guard (`LSOF+LSID+LFNC+LLRC+LEOF = 6` bytes in binary form). -/
def handleASCII (adu : ADU) (resp : List Nat) (cnt : Nat) : HOut :=
  if resp.length < 6 then .err .shortFrame
  else
    let adu := { adu with Hdr := [0] }
    match rd resp cnt with
    | none => .crash
    | some sid =>
      match wr adu.Hdr cnt sid with
      | none => .crash
      | some hdr =>
        .ok { adu with SlaveId := sid, Hdr := hdr } ((cnt + 1) % 256) .SPDU

/-- Go `handleCRC`: length guard, read the stored CRC from the last two bytes
big-endian, recompute over the preceding bytes; continue into `SRTU` on a
match, return the mismatch error otherwise. -/
def handleCRC (adu : ADU) (resp : List Nat) (cnt : Nat) : HOut :=
  if resp.length < 4 then .err .shortFrame
  else
    let stored := 256 * resp.getD (resp.length - 2) 0 + resp.getD (resp.length - 1) 0
    let adu := { adu with CRC := stored,
                          Err := [(stored >>> 8) &&& 255, stored &&& 255] }
    if stored = crc16 (resp.take (resp.length - 2)) then .ok adu cnt .SRTU
    else .err .checksumMismatch

/-- Go `handleLRC`: performs no verification at all; it only moves the machine
into the `SASCII` section. -/
def handleLRC (adu : ADU) (resp : List Nat) (cnt : Nat) : HOut :=
  .ok adu cnt .SASCII

/-- The Go `switch adu.ExceptionCode` accept list: 0 and the nine table
codes; 7, 9 and everything from 12 up fall to the default error. -/
def exCodeKnown (ex : Nat) : Bool :=
  ex = 0 || ex = 1 || ex = 2 || ex = 3 || ex = 4 || ex = 5 || ex = 6 ||
    ex = 8 || ex = 10 || ex = 11

/-- The `Exception` description map; absent keys leave the field at the empty
string, exactly as the Go map lookup guarded by `found` does. -/
def ExceptionText (ex : Nat) : String :=
  if ex = 1 then ("Illegal function code")
  else if ex = 2 then ("Illegal data address")
  else if ex = 3 then ("Illegal data value")
  else if ex = 4 then ("Server device failure")
  else if ex = 5 then ("Acknowledge")
  else if ex = 6 then ("Server device busy")
  else if ex = 8 then ("Memory parity error")
  else if ex = 10 then ("Gateway path unavailable")
  else if ex = 11 then ("Gateway target device failed to respond")
  else ("")

/-- The `EDATA` element: append `k` bytes read at the cursor (the Go loop
bound is `byte(adu.Length)`, handled by the caller). -/
def readData (resp : List Nat) (cnt : Nat) (k : Nat) (acc : List Nat) :
    Option (List Nat × Nat) :=
  match k with
  | 0 => some (acc, cnt)
  | k + 1 =>
    match rd resp cnt with
    | none => none
    | some b => readData resp ((cnt + 1) % 256) k (acc ++ [b])

/-- The `EDATA` element applied to a frame: the loop bound is the low byte of
`adu.Length` and the bytes are appended to the existing `adu.Data`. -/
def dataStep (adu : ADU) (resp : List Nat) (cnt : Nat) : HOut :=
  match readData resp cnt (adu.Length % 256) adu.Data with
  | none => .crash
  | some (data, cnt) => .ok { adu with Data := data } cnt .SDONE

/-- Go `handlePDU`: the element loop over `EFNCODE`, `EEXCODE`, `ELENGTH`,
`EDATA`.  The `SASCII` arm of the function-code dispatch sets no next
element, so the Go loop falls through and re-enters `EFNCODE`; the `fuel`
argument counts those loop iterations (`none` = iterations exhausted). -/
def handlePDU (fuel : Nat) (adu : ADU) (resp : List Nat) (cnt : Nat)
    (start : Section) : Option HOut :=
  match fuel with
  | 0 => none
  | fuel + 1 =>
    match rd resp cnt with
    | none => some .crash
    | some fn =>
      let adu := { adu with FnCode := [fn] }
      let cnt := (cnt + 1) % 256
      if FERR ≤ fn then
        match rd resp cnt with
        | none => some .crash
        | some ex =>
          let adu := { adu with ExceptionCode := ex, Data := [ex] }
          let cnt := (cnt + 1) % 256
          if exCodeKnown ex then
            some (.ok { adu with Exception := ExceptionText ex } cnt .SDONE)
          else some (.err .unsupportedException)
      else if fn = RDCO ∨ fn = RDDI ∨ fn = RDIR ∨ fn = RDHR then
        match start with
        | .SMBAP => some (dataStep adu resp cnt)
        | .SRTU =>
          match rd resp cnt with
          | none => some .crash
          | some len =>
            let adu := { adu with Length := len, Data := [len] }
            let cnt := (cnt + 1) % 256
            if len = 0 then some (.err .illegalLength)
            else some (dataStep adu resp cnt)
        | .SASCII => handlePDU fuel adu resp cnt start
        | _ => some (.err .unsupportedSection)
      else some (.err .unsupportedFunction)

/-- The section loop inside `TPROCESS`, one recursive call per iteration of
the Go `for` loop over `section` (`none` = loop fuel exhausted). -/
def sectionLoop (fuel : Nat) (adu : ADU) (resp : List Nat) (cnt : Nat)
    (start : Section) (sec : Section) : Option DecodeResult :=
  match fuel with
  | 0 => none
  | fuel + 1 =>
    let continue_ : HOut → Option DecodeResult := fun h =>
      match h with
      | .ok adu cnt sec => sectionLoop fuel adu resp cnt start sec
      | .err e => some (.err e)
      | .crash => some .crash
    match sec with
    | .SFAIL => some (.err .failureToProcess)
    | .SDONE => some (.ok adu)
    | .SSOF => continue_ (handleSOF adu resp cnt)
    | .SEOF => continue_ (handleEOF adu resp cnt)
    | .SMBAP => continue_ (handleMBAP adu resp cnt)
    | .SRTU => continue_ (handleRTU adu resp cnt)
    | .SASCII => continue_ (handleASCII adu resp cnt)
    | .SPDU =>
      match handlePDU fuel adu resp cnt start with
      | none => none
      | some h => continue_ h
    | .SERR =>
      match start with
      | .SMBAP => some (.ok adu)
      | .SRTU => continue_ (handleCRC adu resp cnt)
      | .SASCII => continue_ (handleLRC adu resp cnt)
      | _ => some (.err .unsupportedSection)

/-- Go `Recover(response, section)` with explicit loop fuel: the `TPROCESS`
prologue picks the first section from the start section and rejects the
other section tags, then the section loop runs on a fresh `NewADU(nil)`. -/
def RecoverFuel (fuel : Nat) (resp : List Nat) (start : Section) :
    Option DecodeResult :=
  match start with
  | .SMBAP => sectionLoop fuel NewADUnil resp 0 start .SMBAP
  | .SRTU => sectionLoop fuel NewADUnil resp 0 start .SERR
  | .SASCII => sectionLoop fuel NewADUnil resp 0 start .SSOF
  | _ => some (.err .unsupportedSection)

/-- The fuel fixed at 8, which the termination theorem below shows is enough
for every buffer and every start section. -/
def Recover (resp : List Nat) (start : Section) : Option DecodeResult :=
  RecoverFuel 8 resp start

/-! ## Client engine (client.go `Client.do`)

The transport is abstracted by the outcomes the engine can observe: whether
`Send` failed, whether `Listen` failed and with which message, the buffer
contents, and the protocol decode function. -/

/-- Go `Client.do`: send, listen (with the timeout special case keyed on the
error message containing "timeout"), then decode the buffer under the lock. -/
def clientDo (sendErr : Option String) (listenErr : Option String)
    (buffer : List Nat) (decode : List Nat → Except String ADU) :
    Except String ADU :=
  match sendErr with
  | some e => .error ("Request failed: " ++ e)
  | none =>
    match listenErr with
    | some e =>
      if "timeout".toList <:+: e.toList then
        .ok { NewADU (NewPDU FERR) with Timeout := true }
      else
        .error ("Transport unable to listen: " ++ e)
    | none =>
      match decode buffer with
      | .error e => .error ("Unable to decode response: " ++ e)
      | .ok adu => .ok adu

/-! ## Concrete frames used by the theorems -/

/-- Spec scenario 1: the MBAP read-holding-registers response
`00 01 00 00 00 07 01 03 04 00 0A 00 14`. -/
def mbapExample : List Nat :=
  [0x00, 0x01, 0x00, 0x00, 0x00, 0x07, 0x01, 0x03, 0x04, 0x00, 0x0A, 0x00, 0x14]

/-- The ADU state `handleMBAP` would hand to `handlePDU` on `mbapExample` had
the header copy not panicked: header fields parsed, cursor at the function
code. -/
def mbapHeaderState : ADU :=
  { NewADUnil with Hdr := [0, 1, 0, 0, 0, 7, 1], TransactionId := 1,
                   ProtocolId := 0, Length := 7, SlaveId := 1 }

/-- A minimal RTU exception frame: slave id, exception function code,
exception code, followed by the matching CRC stored big-endian. -/
def excFrame (sid fn ex : Nat) : List Nat :=
  [sid, fn, ex, crc16 [sid, fn, ex] / 256, crc16 [sid, fn, ex] % 256]

/-- The stored checksum of an RTU frame: its last two bytes read big-endian
exactly as `handleCRC` reads them. -/
def storedCRC (resp : List Nat) : Nat :=
  256 * resp.getD (resp.length - 2) 0 + resp.getD (resp.length - 1) 0

/-! ## Helper definitions for the theorems -/

def c1DataADU : ADU :=
  { mbapHeaderState with FnCode := [0x03],
                         Data := [0x04, 0x00, 0x0A, 0x00, 0x14, 0x00, 0x00] }
/-- The decoder loop continuation: how one handler outcome feeds the next
iteration of `sectionLoop`. -/
def hcont (fuel : Nat) (resp : List Nat) (start : Section) : HOut → Option DecodeResult
  | .ok adu cnt sec => sectionLoop fuel adu resp cnt start sec
  | .err e => some (.err e)
  | .crash => some .crash
/-- Record `handleCRC`'s bookkeeping on the frame: store the received checksum. -/
def crcUpdate (adu : ADU) (stored : Nat) : ADU :=
  { adu with CRC := stored, Err := [stored >>> 8 &&& 255, stored &&& 255] }

/-- Record `handlePDU`'s bookkeeping on an exception response. -/
def excUpdate (adu : ADU) (fn ex : Nat) : ADU :=
  { adu with FnCode := [fn], ExceptionCode := ex, Data := [ex],
             Exception := ExceptionText ex }

def excADU (sid fn ex : Nat) : ADU :=
  { Hdr := [sid], SlaveId := sid, FnCode := [fn], Data := [ex],
    Err := [crc16 [sid, fn, ex] >>> 8 &&& 255, crc16 [sid, fn, ex] &&& 255],
    CRC := crc16 [sid, fn, ex], ExceptionCode := ex,
    Exception := ExceptionText ex }
def readPDU (r : Request) : PDU :=
  { FnCode := [r.FnCode],
    Data := [(r.Address >>> 8) &&& 255, r.Address &&& 255,
             (r.Quantity >>> 8) &&& 255, r.Quantity &&& 255] }
/-! ## Helper lemmas -/

lemma mod64_small {n : Nat} (h : n ≤ 465535) : n % UINT64MOD = n := by
  apply Nat.mod_eq_of_lt
  unfold UINT64MOD
  omega
lemma handleMBAP_nilHdr (adu : ADU) (resp : List Nat) (cnt : Nat)
    (h : adu.Hdr = []) : handleMBAP adu resp cnt = .crash := by
  unfold handleMBAP
  cases hx : rd16 resp cnt with
  | none => rfl
  | some tid =>
    simp only [wr16, h, List.length_nil]
    rw [if_neg (by omega)]

lemma handleSOF_nilSOF (adu : ADU) (resp : List Nat) (cnt : Nat)
    (h : adu.SOF = []) : handleSOF adu resp cnt = .crash := by
  unfold handleSOF
  cases hx : rd resp cnt with
  | none => rfl
  | some b =>
    simp only [wr, h, List.length_nil]
    rw [if_neg (by omega)]
lemma handlePDU_srtu_spec (fuel : Nat) (adu : ADU) (resp : List Nat) (cnt : Nat) :
    (∃ e, handlePDU (fuel + 1) adu resp cnt .SRTU = some (.err e) ∧
        e ≠ DErr.checksumMismatch) ∨
    handlePDU (fuel + 1) adu resp cnt .SRTU = some .crash ∨
    (∃ fn adu2 cnt2, rd resp cnt = some fn ∧
        handlePDU (fuel + 1) adu resp cnt .SRTU = some (.ok adu2 cnt2 .SDONE) ∧
        adu2.SlaveId = adu.SlaveId ∧ adu2.FnCode = [fn]) := by
  unfold handlePDU
  cases hx : rd resp cnt with
  | none => exact Or.inr (Or.inl rfl)
  | some fn =>
    dsimp only
    split
    · -- exception function code
      cases hy : rd resp ((cnt + 1) % 256) with
      | none => exact Or.inr (Or.inl rfl)
      | some ex =>
        dsimp only
        split
        · exact Or.inr (Or.inr ⟨fn, _, _, rfl, rfl, rfl, rfl⟩)
        · exact Or.inl ⟨.unsupportedException, rfl, by simp⟩
    · split
      · -- supported read code, SRTU arm
        cases hy : rd resp ((cnt + 1) % 256) with
        | none => exact Or.inr (Or.inl rfl)
        | some len =>
          dsimp only
          split
          · exact Or.inl ⟨.illegalLength, rfl, by simp⟩
          · unfold dataStep
            dsimp only
            split
            · exact Or.inr (Or.inl rfl)
            · exact Or.inr (Or.inr ⟨fn, _, _, rfl, rfl, rfl, rfl⟩)
      · exact Or.inl ⟨.unsupportedFunction, rfl, by simp⟩
lemma rtu_decode_cases (fuel : Nat) (resp : List Nat) (h4 : 4 ≤ resp.length) :
    (storedCRC resp ≠ crc16 (resp.take (resp.length - 2)) →
      sectionLoop (fuel + 4) NewADUnil resp 0 .SRTU .SERR =
        some (.err .checksumMismatch)) ∧
    (storedCRC resp = crc16 (resp.take (resp.length - 2)) →
      ∃ r, sectionLoop (fuel + 4) NewADUnil resp 0 .SRTU .SERR = some r ∧
        r ≠ DecodeResult.err .checksumMismatch ∧
        ∀ adu, r = DecodeResult.ok adu →
          adu.SlaveId = resp.getD 0 0 ∧ adu.FnCode = [resp.getD 1 0]) := by
  have hstep : sectionLoop (fuel + 4) NewADUnil resp 0 .SRTU .SERR =
      hcont (fuel + 3) resp .SRTU (handleCRC NewADUnil resp 0) := rfl
  rw [hstep]
  unfold handleCRC storedCRC
  rw [if_neg (by omega)]
  dsimp only
  constructor
  · intro hne
    rw [if_neg hne]
    rfl
  · intro heq
    rw [if_pos heq]
    dsimp only [hcont]
    have hstep2 : ∀ adu : ADU, sectionLoop (fuel + 3) adu resp 0 .SRTU .SRTU =
        hcont (fuel + 2) resp .SRTU (handleRTU adu resp 0) := fun _ => rfl
    rw [hstep2]
    unfold handleRTU
    rw [if_neg (by omega)]
    cases hx : rd resp 0 with
    | none =>
      exfalso
      unfold rd at hx
      rw [List.get?_eq_none] at hx
      omega
    | some sid =>
      dsimp only
      rw [show wr [0] 0 sid = some [sid] from rfl]
      dsimp only [hcont]
      have hstep3 : ∀ adu : ADU, ∀ c : Nat,
          sectionLoop (fuel + 2) adu resp c .SRTU .SPDU =
            (match handlePDU (fuel + 1) adu resp c .SRTU with
             | none => none
             | some h => hcont (fuel + 1) resp .SRTU h) := fun _ _ => rfl
      rw [hstep3]
      rcases handlePDU_srtu_spec fuel _ resp ((0 + 1) % 256) with
        ⟨e, he, hnemm⟩ | hc | ⟨fn, adu3, cnt3, hfn, hok, hsl, hfc⟩
      · rw [he]
        exact ⟨.err e, rfl, by simp [hnemm], by simp⟩
      · rw [hc]
        exact ⟨.crash, rfl, by simp, by simp⟩
      · rw [hok]
        dsimp only [hcont]
        have hstep4 : ∀ adu : ADU, ∀ c : Nat,
            sectionLoop (fuel + 1) adu resp c .SRTU .SDONE =
              some (.ok adu) := fun _ _ => rfl
        rw [hstep4]
        refine ⟨.ok adu3, rfl, by simp, ?_⟩
        intro adu h
        rw [show adu = adu3 by simpa using h.symm]
        constructor
        · rw [hsl]
          unfold rd at hx
          rw [List.get?_eq_getElem?] at hx
          simp [List.getD, hx]
        · rw [hfc]
          unfold rd at hfn
          norm_num at hfn
          simp [List.getD, hfn]
lemma handlePDU_exc (fuel : Nat) (adu : ADU) (resp : List Nat) (cnt : Nat)
    (fn ex : Nat) (hfn : FERR ≤ fn) (h1 : rd resp cnt = some fn)
    (h2 : rd resp ((cnt + 1) % 256) = some ex) (start : Section) :
    handlePDU (fuel + 1) adu resp cnt start =
      (if exCodeKnown ex then
        some (.ok (excUpdate adu fn ex) (((cnt + 1) % 256 + 1) % 256) .SDONE)
      else some (.err .unsupportedException)) := by
  unfold handlePDU
  rw [h1]
  dsimp only
  rw [if_pos hfn, h2]
  rfl
lemma recover_exc5 (sid fn ex b1 b2 : Nat) (hfn : 128 ≤ fn)
    (hcrc : 256 * b1 + b2 = crc16 [sid, fn, ex]) :
    Recover [sid, fn, ex, b1, b2] .SRTU =
      (if exCodeKnown ex then some (.ok (excADU sid fn ex))
       else some (.err .unsupportedException)) := by
  have h1 : Recover [sid, fn, ex, b1, b2] .SRTU =
      hcont 7 [sid, fn, ex, b1, b2] .SRTU
        (handleCRC NewADUnil [sid, fn, ex, b1, b2] 0) := rfl
  rw [h1]
  have hcrcstep : handleCRC NewADUnil [sid, fn, ex, b1, b2] 0 =
      (if 256 * b1 + b2 = crc16 [sid, fn, ex] then
        HOut.ok (crcUpdate NewADUnil (256 * b1 + b2)) 0 .SRTU
      else .err .checksumMismatch) := rfl
  rw [hcrcstep, if_pos hcrc]
  dsimp only [hcont]
  have h2 : ∀ adu : ADU, sectionLoop 7 adu [sid, fn, ex, b1, b2] 0 .SRTU .SRTU =
      hcont 6 [sid, fn, ex, b1, b2] .SRTU
        (handleRTU adu [sid, fn, ex, b1, b2] 0) := fun _ => rfl
  rw [h2]
  have h3 : ∀ adu : ADU, handleRTU adu [sid, fn, ex, b1, b2] 0 =
      .ok { adu with Hdr := [sid], SlaveId := sid } 1 .SPDU := fun _ => rfl
  rw [h3]
  dsimp only [hcont]
  have h4 : ∀ adu : ADU, sectionLoop 6 adu [sid, fn, ex, b1, b2] 1 .SRTU .SPDU =
      (match handlePDU (4 + 1) adu [sid, fn, ex, b1, b2] 1 .SRTU with
       | none => none
       | some h => hcont 5 [sid, fn, ex, b1, b2] .SRTU h) := fun _ => rfl
  rw [h4]
  rw [handlePDU_exc 4 _ [sid, fn, ex, b1, b2] 1 fn ex hfn rfl rfl]
  by_cases hk : exCodeKnown ex = true
  · rw [if_pos hk, if_pos hk]
    dsimp only [hcont]
    have h5 : ∀ (adu : ADU) (c : Nat),
        sectionLoop 5 adu [sid, fn, ex, b1, b2] c .SRTU .SDONE =
          some (DecodeResult.ok adu) := fun _ _ => rfl
    rw [h5]
    rw [hcrc]
    rfl
  · rw [if_neg hk, if_neg hk]
    rfl
lemma exCodeKnown_false_iff (ex : Nat) :
    exCodeKnown ex = false ↔ (ex = 7 ∨ ex = 9 ∨ 12 ≤ ex) := by
  unfold exCodeKnown
  simp only [Bool.or_eq_false_iff, decide_eq_false_iff_not]
  omega
/-! ## Claim theorems -/

/-- C1: the claim says an MBAP decode reads exactly `length - 2` bytes after
the function code as the PDU data and that the example response decodes to
function code 0x03 with data `04 00 0A 00 14`.  The code instead panics on
every MBAP decode (the first header copy in `handleMBAP` writes through the
nil `Hdr` slice), and even from a repaired post-header state its data element
reads `length` bytes, not `length - 2`: on the example frame that overruns the
buffer (crash), and with two bytes of padding it collects 7 data bytes. -/
theorem c1_mbap_decode_crash :
    Recover mbapExample .SMBAP = some .crash ∧
    handlePDU 8 mbapHeaderState mbapExample 7 .SMBAP = some .crash ∧
    handlePDU 8 mbapHeaderState (mbapExample ++ [0, 0]) 7 .SMBAP =
      some (.ok c1DataADU 15 .SDONE) := by
  refine ⟨by decide, by decide, by decide⟩
/-- C2: the claim says every buffer shorter than its variant minimum yields a
short-frame error with no out-of-bounds access.  Only the RTU path does (third
conjunct); the MBAP path has no length guard at all and panics on short input,
and the ASCII path panics writing the nil `SOF` slice before its guard runs. -/
theorem c2_short_frame_behaviour :
    Recover [0x00, 0x01, 0x00, 0x00, 0x00, 0x01, 0x01] .SMBAP = some .crash ∧
    Recover [] .SMBAP = some .crash ∧
    Recover [0x3A, 0x31, 0x31, 0x30] .SASCII = some .crash ∧
    Recover [0x11, 0x01, 0x02] .SRTU = some (.err .shortFrame) := by
  refine ⟨by decide, by decide, by decide, by decide⟩
/-- C3: translating a legal absolute register number to a (function code,
relative address) pair with `Relative` and back with `Absolute` returns the
original absolute number, with no error on either leg. -/
theorem c3_relative_absolute_roundtrip (a : Nat) (h : legalAbsolute a) :
    (Relative a).2.2 = false ∧
      Absolute (Relative a).1 (Relative a).2.1 = (a, false) := by
  rcases h with h | ⟨h1, h2⟩ | ⟨h1, h2⟩ | ⟨h1, h2⟩
  · have hr : Relative a = (RDCO, a, false) := by
      unfold Relative
      rw [if_pos h]
    rw [hr]
    refine ⟨rfl, ?_⟩
    show Absolute RDCO a = (a, false)
    unfold Absolute
    rw [if_pos rfl]
  · have hr : Relative a = (RDDI, a - 100000, false) := by
      unfold Relative
      rw [if_neg (by omega), if_pos ⟨h1, h2⟩]
    rw [hr]
    refine ⟨rfl, ?_⟩
    show Absolute RDDI (a - 100000) = (a, false)
    unfold Absolute
    rw [if_neg (by decide), if_pos rfl]
    rw [show a - 100000 + 100000 = a by omega, mod64_small (by omega)]
  · have hr : Relative a = (RDIR, a - 300000, false) := by
      unfold Relative
      rw [if_neg (by omega), if_neg (by omega), if_pos ⟨h1, h2⟩]
    rw [hr]
    refine ⟨rfl, ?_⟩
    show Absolute RDIR (a - 300000) = (a, false)
    unfold Absolute
    rw [if_neg (by decide), if_neg (by decide), if_pos rfl]
    rw [show a - 300000 + 300000 = a by omega, mod64_small (by omega)]
  · have hr : Relative a = (RDHR, a - 400000, false) := by
      unfold Relative
      rw [if_neg (by omega), if_neg (by omega), if_neg (by omega), if_pos ⟨h1, h2⟩]
    rw [hr]
    refine ⟨rfl, ?_⟩
    show Absolute RDHR (a - 400000) = (a, false)
    unfold Absolute
    rw [if_neg (by decide), if_neg (by decide), if_neg (by decide), if_pos rfl]
    rw [show a - 400000 + 400000 = a by omega, mod64_small (by omega)]
/-- Witness for C3 at the spec example absolute 400010. -/
theorem c3_witness :
    legalAbsolute 400010 ∧ (Relative 400010).2.2 = false ∧
      Absolute (Relative 400010).1 (Relative 400010).2.1 = (400010, false) :=
  ⟨by decide, c3_relative_absolute_roundtrip 400010 (by decide)⟩
/-- C4: the address translator follows the range table on every absolute
address: each of the four ranges maps to its function code with the range
offset subtracted (in particular 400010 to code 0x03 with relative 10 and
100000 to 0x02 with relative 0), and every absolute outside the four ranges
fails with the address-out-of-range result (`FERR`, input echoed, error
flag). -/
theorem c4_relative_range_table :
    Relative 400010 = (0x03, 10, false) ∧ Relative 100000 = (0x02, 0, false) ∧
    (∀ a : Nat, a ≤ 65535 → Relative a = (RDCO, a, false)) ∧
    (∀ a : Nat, 100000 ≤ a → a ≤ 165535 →
      Relative a = (RDDI, a - 100000, false)) ∧
    (∀ a : Nat, 300000 ≤ a → a ≤ 365535 →
      Relative a = (RDIR, a - 300000, false)) ∧
    (∀ a : Nat, 400000 ≤ a → a ≤ 465535 →
      Relative a = (RDHR, a - 400000, false)) ∧
    (∀ a : Nat, ¬ legalAbsolute a → Relative a = (FERR, a, true)) := by
  refine ⟨by decide, by decide, ?_, ?_, ?_, ?_, ?_⟩
  · intro a h
    unfold Relative
    rw [if_pos h]
  · intro a h1 h2
    unfold Relative
    rw [if_neg (by omega), if_pos ⟨h1, h2⟩]
  · intro a h1 h2
    unfold Relative
    rw [if_neg (by omega), if_neg (by omega), if_pos ⟨h1, h2⟩]
  · intro a h1 h2
    unfold Relative
    rw [if_neg (by omega), if_neg (by omega), if_neg (by omega),
      if_pos ⟨h1, h2⟩]
  · intro a h
    unfold legalAbsolute at h
    unfold Relative
    split_ifs <;> first | rfl | omega
/-- Witness for C4: an in-range absolute (300005, read-input-registers range)
and the out-of-range absolute 70000. -/
theorem c4_witness :
    Relative 300005 = (RDIR, 5, false) ∧
    ¬ legalAbsolute 70000 ∧ Relative 70000 = (FERR, 70000, true) :=
  ⟨(c4_relative_range_table.2.2.2.2.1 300005 (by decide)
      (by decide)).trans (by decide),
   by decide,
   c4_relative_range_table.2.2.2.2.2.2 70000 (by decide)⟩
/-- C5: for every RTU frame of at least the 4-byte minimum, when its last two
bytes read big-endian differ from the CRC-16 recomputed over the preceding
bytes, decode returns the checksum-mismatch error and no ADU; when they match,
decode does not report a mismatch and any successfully decoded ADU carries the
slave id from byte 0 and the function code from byte 1 (parsing proceeded into
the RTU and PDU sections). -/
theorem c5_rtu_crc_gate (resp : List Nat) (h4 : 4 ≤ resp.length) :
    (storedCRC resp ≠ crc16 (resp.take (resp.length - 2)) →
      Recover resp .SRTU = some (.err .checksumMismatch)) ∧
    (storedCRC resp = crc16 (resp.take (resp.length - 2)) →
      Recover resp .SRTU ≠ some (.err .checksumMismatch) ∧
      ∀ adu, Recover resp .SRTU = some (.ok adu) →
        adu.SlaveId = resp.getD 0 0 ∧ adu.FnCode = [resp.getD 1 0]) := by
  have h := rtu_decode_cases 4 resp h4
  constructor
  · intro hne
    show sectionLoop (4 + 4) NewADUnil resp 0 .SRTU .SERR =
      some (.err .checksumMismatch)
    exact h.1 hne
  · intro heq
    rcases h.2 heq with ⟨r, hr, hnm, hok⟩
    constructor
    · show sectionLoop (4 + 4) NewADUnil resp 0 .SRTU .SERR ≠
        some (.err .checksumMismatch)
      rw [hr]
      simp only [ne_eq, Option.some.injEq]
      exact hnm
    · intro adu ha
      apply hok
      have ha' : sectionLoop (4 + 4) NewADUnil resp 0 .SRTU .SERR =
          some (.ok adu) := ha
      rw [hr] at ha'
      simpa using ha'
/-- Witness for C5: the all-zero 4-byte frame has a stored CRC of 0, which differs from the recomputed CRC, so decode reports the mismatch. -/
theorem c5_witness :
    Recover [0, 0, 0, 0] .SRTU = some (.err .checksumMismatch) :=
  (c5_rtu_crc_gate [0, 0, 0, 0] (by decide)).1 (by decide)
/-- C6: the request encoder emits exactly 4 data bytes (address big-endian
u16, then quantity big-endian u16) for function codes 0x01-0x04, empty data
for 0x11, and the unsupported-function error for every other code. -/
theorem c6_request_encode (r : Request) :
    ((r.FnCode = 0x01 ∨ r.FnCode = 0x02 ∨ r.FnCode = 0x03 ∨ r.FnCode = 0x04) →
      Request.Encode r = Except.ok (readPDU r) ∧ (readPDU r).Data.length = 4) ∧
    (r.FnCode = 0x11 →
      Request.Encode r = Except.ok { FnCode := [r.FnCode], Data := [] }) ∧
    (r.FnCode ≠ 0x11 → r.FnCode ≠ 0x01 → r.FnCode ≠ 0x02 → r.FnCode ≠ 0x03 →
      r.FnCode ≠ 0x04 →
      Request.Encode r = Except.error ("Unsupported function code")) := by
  refine ⟨?_, ?_, ?_⟩
  · intro h
    unfold Request.Encode RSID RDCO RDDI RDHR RDIR
    rw [if_neg (by omega), if_pos (by omega)]
    exact ⟨rfl, rfl⟩
  · intro h
    unfold Request.Encode RSID
    rw [if_pos h]
  · intro h1 h2 h3 h4 h5
    unfold Request.Encode RSID RDCO RDDI RDHR RDIR
    rw [if_neg h1, if_neg (by omega)]
/-- Witness for C6 at the read request (0x03, 19, 2) and the unsupported code 0x05. -/
theorem c6_witness :
    Request.Encode { FnCode := 3, Address := 19, Quantity := 2 } =
      Except.ok (readPDU { FnCode := 3, Address := 19, Quantity := 2 }) ∧
    Request.Encode { FnCode := 5, Address := 0, Quantity := 0 } =
      Except.error ("Unsupported function code") :=
  ⟨((c6_request_encode ⟨3, 19, 2⟩).1 (by decide)).1,
   (c6_request_encode ⟨5, 0, 0⟩).2.2 (by decide) (by decide) (by decide)
     (by decide) (by decide)⟩
/-- C7: the claim says `error_lrc` clears `err`, computes the LRC-8 and
leaves `err` holding that one byte.  The source function clears `err` and
computes nothing: `err` is left empty for every ADU, while the spec LRC of
the example body `11 03 00 00 00 01` is 0xEB. -/
theorem c7_error_lrc_writes_nothing :
    (∀ d : ADU, (ADU.ErrorLRC d).Err = []) ∧
    lrc8 ([0x11] ++ [0x03] ++ [0x00, 0x00, 0x00, 0x01]) = 0xEB ∧
    (ADU.ErrorLRC
        { Hdr := [0x11], FnCode := [0x03], Data := [0x00, 0x00, 0x00, 0x01] }).Err
      ≠ [0xEB] :=
  ⟨fun _ => rfl, by decide, by decide⟩
/-- C8: when `listen` fails with a message containing "timeout" the engine
returns the synthetic ADU (timeout flag set, function code 0x80) with no
error; every other listen failure returns an error value and no ADU. -/
theorem c8_listen_timeout (msg : String) (buffer : List Nat)
    (decode : List Nat → Except String ADU) :
    clientDo none (some msg) buffer decode =
      (if "timeout".toList <:+: msg.toList then
        Except.ok { NewADU (NewPDU FERR) with Timeout := true }
      else Except.error ("Transport unable to listen: " ++ msg)) ∧
    ({ NewADU (NewPDU FERR) with Timeout := true } : ADU).Timeout = true ∧
    ({ NewADU (NewPDU FERR) with Timeout := true } : ADU).FnCode = [0x80] :=
  ⟨rfl, rfl, rfl⟩
/-- C9: the decoder state machine terminates within the fixed fuel for every
buffer and every start section, but it does not always return a decoded ADU
or an error as claimed: on the example MBAP response it terminates by runtime
panic (crash), neither of the two claimed outcomes. -/
theorem c9_recover_terminates :
    (∀ (resp : List Nat) (start : Section), (Recover resp start).isSome = true) ∧
    Recover mbapExample .SMBAP = some .crash := by
  refine ⟨?_, by decide⟩
  intro resp start
  cases start with
  | SMBAP =>
    have h1 : Recover resp .SMBAP =
        hcont 7 resp .SMBAP (handleMBAP NewADUnil resp 0) := rfl
    rw [h1, handleMBAP_nilHdr _ _ _ rfl]
    rfl
  | SASCII =>
    have h1 : Recover resp .SASCII =
        hcont 7 resp .SASCII (handleSOF NewADUnil resp 0) := rfl
    rw [h1, handleSOF_nilSOF _ _ _ rfl]
    rfl
  | SRTU =>
    show (sectionLoop (4 + 4) NewADUnil resp 0 .SRTU .SERR).isSome = true
    by_cases h4 : 4 ≤ resp.length
    · have h := rtu_decode_cases 4 resp h4
      by_cases hcrc : storedCRC resp = crc16 (resp.take (resp.length - 2))
      · rcases h.2 hcrc with ⟨r, hr, -, -⟩
        rw [hr]
        rfl
      · rw [h.1 hcrc]
        rfl
    · have h1 : sectionLoop (4 + 4) NewADUnil resp 0 .SRTU .SERR =
          hcont (4 + 3) resp .SRTU (handleCRC NewADUnil resp 0) := rfl
      rw [h1]
      unfold handleCRC
      rw [if_pos (by omega)]
      rfl
  | SPDU => rfl
  | SERR => rfl
  | SDONE => rfl
  | SFAIL => rfl
  | SSOF => rfl
  | SEOF => rfl

/-- C10: an RTU exception frame whose exception-code byte is 0 decodes
successfully with `ExceptionCode` 0 and empty exception text even though 0 is
not in the description table, and the decoder rejects an exception code as
unsupported exactly when it is 7, 9, or at least 12. -/
theorem c10_exception_zero_and_rejects (sid fn ex : Nat) (hfn : 128 ≤ fn) :
    (ex = 0 → ∃ adu, Recover (excFrame sid fn ex) .SRTU = some (.ok adu) ∧
        adu.ExceptionCode = 0 ∧ adu.Exception = "") ∧
    (Recover (excFrame sid fn ex) .SRTU = some (.err .unsupportedException) ↔
      (ex = 7 ∨ ex = 9 ∨ 12 ≤ ex)) := by
  have hr : Recover (excFrame sid fn ex) .SRTU =
      (if exCodeKnown ex then some (.ok (excADU sid fn ex))
       else some (.err .unsupportedException)) :=
    recover_exc5 sid fn ex (crc16 [sid, fn, ex] / 256)
      (crc16 [sid, fn, ex] % 256) hfn (Nat.div_add_mod _ 256)
  constructor
  · intro h0
    subst h0
    rw [hr, if_pos (show exCodeKnown 0 = true from rfl)]
    exact ⟨excADU sid fn 0, rfl, rfl, rfl⟩
  · rw [hr]
    constructor
    · intro hres
      by_cases hk : exCodeKnown ex = true
      · rw [if_pos hk] at hres
        simp at hres
      · exact (exCodeKnown_false_iff ex).1 (by simpa using hk)
    · intro hcase
      have hk : exCodeKnown ex = false := (exCodeKnown_false_iff ex).2 hcase
      rw [if_neg (by simp [hk])]
/-- Witness for C10 at slave 0x11, function code 0x83, exception code 0. -/
theorem c10_witness :
    (0 = 0 → ∃ adu, Recover (excFrame 0x11 0x83 0) .SRTU = some (.ok adu) ∧
        adu.ExceptionCode = 0 ∧ adu.Exception = "") ∧
    (Recover (excFrame 0x11 0x83 0) .SRTU = some (.err .unsupportedException) ↔
      (0 = 7 ∨ 0 = 9 ∨ 12 ≤ 0)) :=
  c10_exception_zero_and_rejects 0x11 0x83 0 (by decide)
